import Mathlib

/-!
Shallow embedding of the PortfolioStockTracker transaction-ledger engine
(`src/transaction.py`, `src/portfolio.py`, `src/stock.py`, `src/data_store.py`).

Modelling conventions:
* Python floats are modelled as rationals (`ℚ`);
* Python dicts keyed by ticker are modelled as total functions
  `String → TickerState` (the `defaultdict(… 0.0 …)` default is the value of
  the function on keys never updated), plus an explicit insertion-ordered key
  list where dict iteration order matters;
* `str.upper()` is modelled on the basic-latin fragment via `Char.toUpper`,
  matching Python's behaviour on ASCII tickers;
* `datetime` values are modelled as an abstract `Nat` timestamp: no query of
  the ledger ever inspects a date, and ISO serialization round-trips it;
* Python exceptions are modelled with `Except PyErr` at the boundaries that
  can raise (`Transaction.from_dict`, `Portfolio.from_dict`,
  `DataStore.load_portfolio`); pure ledger queries are plain functions.
-/

/-- Models Python `str.upper()` on the basic-latin fragment: uppercase each
character (`Char.toUpper` fixes everything outside `a`-`z`). -/
def pyUpper (s : String) : String :=
  ⟨s.data.map Char.toUpper⟩

/-- `transaction.py`: enumeration `TransactionType` with values BUY, SELL,
DIVIDEND. -/
inductive TransactionType where
  | buy
  | sell
  | dividend
deriving DecidableEq

/-- `TransactionType(...).value`: the wire string of each enum member. -/
def TransactionType.value : TransactionType → String
  | .buy => "BUY"
  | .sell => "SELL"
  | .dividend => "DIVIDEND"

/-- Python errors that the embedded deserialization code can raise:
`KeyError` from a missing dict field, `ValueError` from
`TransactionType(bad_string)`. -/
inductive PyErr where
  | keyError
  | valueError
deriving DecidableEq

/-- `TransactionType(s)`: look an enum member up by its wire value; raises
`ValueError` on an unrecognized string. -/
def TransactionType.ofValue (s : String) : Except PyErr TransactionType :=
  if s = "BUY" then .ok .buy
  else if s = "SELL" then .ok .sell
  else if s = "DIVIDEND" then .ok .dividend
  else .error .valueError

/-- `transaction.py`: the `Transaction` record after `__init__` has run
(fields as stored on the object). -/
structure Transaction where
  ticker : String
  transaction_type : TransactionType
  quantity : ℚ
  price : ℚ
  date : Nat
  transaction_id : String
deriving DecidableEq

/-- `Transaction._generate_id`: `f"{ticker}_{date...}"` (the timestamp is
rendered from the abstract `Nat` date). -/
def generateId (ticker : String) (date : Nat) : String :=
  ticker ++ "_" ++ toString date

/-- `Transaction.__init__`: uppercase the ticker, coerce quantity/price, and
take the given id unless it is falsy (absent or the empty string), in which
case generate one. The constructor performs no validation whatsoever. -/
def Transaction.init (ticker : String) (ty : TransactionType) (quantity price : ℚ)
    (date : Nat) (tid : Option String) : Transaction :=
  let tk := pyUpper ticker
  { ticker := tk
    transaction_type := ty
    quantity := quantity
    price := price
    date := date
    transaction_id :=
      match tid with
      | some s => if s = "" then generateId tk date else s
      | none => generateId tk date }

/-- `Transaction.__init__` viewed as a fallible operation: the body contains
no `raise` and no failing call, so it always returns the constructed record.
This is the embedding against which "construction fails" claims are read. -/
def Transaction.tryInit (ticker : String) (ty : TransactionType) (quantity price : ℚ)
    (date : Nat) (tid : Option String) : Except PyErr Transaction :=
  .ok (Transaction.init ticker ty quantity price date tid)

/-- `Transaction.total_value` property: `quantity * price`. -/
def Transaction.total_value (t : Transaction) : ℚ :=
  t.quantity * t.price

/-- Per-ticker replay state: the interim `{'quantity': …, 'total_cost': …}`
dict entry used by both `get_holdings` and `get_realized_gains`. -/
structure TickerState where
  quantity : ℚ
  total_cost : ℚ
deriving DecidableEq

/-- The `defaultdict` default entry: `{'quantity': 0.0, 'total_cost': 0.0}`. -/
def TickerState.zero : TickerState := ⟨0, 0⟩

/-- The replay accumulator, as a total function (defaultdict semantics). -/
def ReplayState := String → TickerState

/-- Point update of the accumulator at one ticker key. -/
def updateState (st : ReplayState) (tk : String) (v : TickerState) : ReplayState :=
  fun x => if x = tk then v else st x

/-- The empty accumulator: every ticker at the defaultdict default. -/
def initState : ReplayState := fun _ => TickerState.zero

/-- One iteration of the `get_holdings` replay loop (`portfolio.py` lines
91-102): BUY accumulates quantity and cost; SELL reduces the cost basis
proportionally only when the current quantity is positive, but always reduces
the quantity; DIVIDEND is not matched by either branch. -/
def holdingsStep (st : ReplayState) (t : Transaction) : ReplayState :=
  match t.transaction_type with
  | .buy =>
      let cur := st t.ticker
      updateState st t.ticker ⟨cur.quantity + t.quantity, cur.total_cost + t.total_value⟩
  | .sell =>
      let cur := st t.ticker
      if 0 < cur.quantity then
        let avg := cur.total_cost / cur.quantity
        updateState st t.ticker ⟨cur.quantity - t.quantity, cur.total_cost - avg * t.quantity⟩
      else
        updateState st t.ticker ⟨cur.quantity - t.quantity, cur.total_cost⟩
  | .dividend => st

/-- The full `get_holdings` replay over the transaction list. -/
def holdingsReplay (ts : List Transaction) : ReplayState :=
  ts.foldl holdingsStep initState

/-- `portfolio.py`: the `Holding` view object (constructor uppercases the
ticker again). -/
structure Holding where
  ticker : String
  quantity : ℚ
  average_cost : ℚ
deriving DecidableEq

/-- `Holding.total_cost` property: `quantity * average_cost`. -/
def Holding.total_cost (h : Holding) : ℚ :=
  h.quantity * h.average_cost

/-- `Portfolio.get_holdings`, as a lookup function on the resulting dict
(`portfolio.py` lines 104-111): a ticker is present only if its replayed
quantity is strictly positive, with `average_cost = total_cost / quantity`
(the `else 0` alternative of the source's conditional is unreachable under
the positivity guard but kept). -/
def getHoldings (ts : List Transaction) (tk : String) : Option Holding :=
  let d := holdingsReplay ts tk
  if 0 < d.quantity then
    some ⟨pyUpper tk, d.quantity, if 0 < d.quantity then d.total_cost / d.quantity else 0⟩
  else
    none

/-- One iteration of the `get_realized_gains` replay loop (`portfolio.py`
lines 123-139): identical to the holdings loop on BUY, but the whole SELL
processing — gain accrual *and* state update — is guarded by
`quantity > 0`, so a SELL with no positive prior quantity does nothing. -/
def gainsStep (acc : ReplayState × ℚ) (t : Transaction) : ReplayState × ℚ :=
  match t.transaction_type with
  | .buy =>
      let cur := acc.1 t.ticker
      (updateState acc.1 t.ticker ⟨cur.quantity + t.quantity, cur.total_cost + t.total_value⟩,
       acc.2)
  | .sell =>
      let cur := acc.1 t.ticker
      if 0 < cur.quantity then
        let avg := cur.total_cost / cur.quantity
        let cost_basis := avg * t.quantity
        (updateState acc.1 t.ticker ⟨cur.quantity - t.quantity, cur.total_cost - cost_basis⟩,
         acc.2 + (t.total_value - cost_basis))
      else
        acc
  | .dividend => acc

/-- The full `get_realized_gains` fold (tracker state and running total). -/
def gainsReplay (ts : List Transaction) : ReplayState × ℚ :=
  ts.foldl gainsStep (initState, 0)

/-- `Portfolio.get_realized_gains`: the running total after the replay. -/
def getRealizedGains (ts : List Transaction) : ℚ :=
  (gainsReplay ts).2

/-- `Portfolio.get_dividend_income`: sum of `total_value` over DIVIDEND
transactions. -/
def getDividendIncome (ts : List Transaction) : ℚ :=
  ((ts.filter fun t => t.transaction_type = .dividend).map Transaction.total_value).sum

/-- `stock.py`: the `Stock` record after `__init__` (`name or ticker` keeps
the raw ticker argument when the name is falsy). -/
structure Stock where
  ticker : String
  name : String
deriving DecidableEq

/-- `Stock.__init__`. -/
def Stock.init (ticker name : String) : Stock :=
  ⟨pyUpper ticker, if name = "" then ticker else name⟩

/-- `portfolio.py`: the `Portfolio` aggregate; the `stocks` dict is modelled
as an insertion-ordered association list. -/
structure Portfolio where
  name : String
  transactions : List Transaction
  stocks : List (String × Stock)

/-- `Portfolio.add_transaction`: append to the ledger and register the ticker
in `stocks` if absent (`Stock(transaction.ticker)` with the default empty
name, so the display name falls back to the ticker). -/
def Portfolio.add_transaction (p : Portfolio) (t : Transaction) : Portfolio :=
  { p with
    transactions := p.transactions ++ [t]
    stocks :=
      if (p.stocks.lookup t.ticker).isSome then p.stocks
      else p.stocks ++ [(t.ticker, Stock.init t.ticker "")] }

/-- `insertion into dict keys`: Python dict key creation order — a key is
appended the first time it is touched. -/
def insertKey (ks : List String) (k : String) : List String :=
  if k ∈ ks then ks else ks ++ [k]

/-- The keys of the interim `holdings_data` defaultdict after the
`get_holdings` loop: every BUY/SELL transaction touches its ticker's entry
(DIVIDEND transactions touch nothing), in first-touch order. -/
def holdingKeys (ts : List Transaction) : List String :=
  ts.foldl
    (fun ks t =>
      match t.transaction_type with
      | .dividend => ks
      | _ => insertKey ks t.ticker)
    []

/-- The `get_holdings` result as an insertion-ordered association list
(`portfolio.py` lines 104-111): dict keys filtered to positive quantity. -/
def holdingsItems (ts : List Transaction) : List (String × Holding) :=
  (holdingKeys ts).filterMap fun tk => (getHoldings ts tk).map fun h => (tk, h)

/-- `Portfolio.get_portfolio_summary` result record. -/
structure PortfolioSummary where
  name : String
  total_holdings : Nat
  total_cost_basis : ℚ
  realized_gains : ℚ
  dividend_income : ℚ
  total_transactions : Nat
  holdings : List (String × Holding)
deriving DecidableEq

/-- `Portfolio.get_portfolio_summary` (`portfolio.py` lines 168-188): holdings
count, summed cost basis, realized gains, dividend income, transaction count.
No division occurs in this function. -/
def getPortfolioSummary (p : Portfolio) : PortfolioSummary :=
  let items := holdingsItems p.transactions
  { name := p.name
    total_holdings := items.length
    total_cost_basis := (items.map fun kv => kv.2.total_cost).sum
    realized_gains := getRealizedGains p.transactions
    dividend_income := getDividendIncome p.transactions
    total_transactions := p.transactions.length
    holdings := items }

/-! ### Serialization (`to_dict` / `from_dict`) and the data store -/

/-- The wire record of one transaction (`Transaction.to_dict` output /
`Transaction.from_dict` input). `Option` marks a field that may be missing
from a hand-crafted or corrupted snapshot; `total_value` is the redundant
derived field. -/
structure TransRecord where
  transaction_id : Option String
  ticker : Option String
  transaction_type : Option String
  quantity : Option ℚ
  price : Option ℚ
  date : Option Nat
  total_value : Option ℚ
deriving DecidableEq

/-- The wire record of one stock. -/
structure StockRecord where
  ticker : Option String
  name : Option String
deriving DecidableEq

/-- The snapshot record (`Portfolio.to_dict` output / `from_dict` input). -/
structure PortfolioRecord where
  name : Option String
  stocks : Option (List (String × StockRecord))
  transactions : Option (List TransRecord)
deriving DecidableEq

/-- Python `data['field']`: raises `KeyError` when the field is missing. -/
def requireField {α : Type} : Option α → Except PyErr α
  | some a => .ok a
  | none => .error .keyError

/-- `Transaction.to_dict`: every field plus the derived `total_value`. -/
def Transaction.to_dict (t : Transaction) : TransRecord :=
  { transaction_id := some t.transaction_id
    ticker := some t.ticker
    transaction_type := some t.transaction_type.value
    quantity := some t.quantity
    price := some t.price
    date := some t.date
    total_value := some t.total_value }

/-- `Transaction.from_dict`: required lookups in source order (`ticker`,
`transaction_type` plus its enum parse, `quantity`, `price`, `date`), the
optional `transaction_id` via `.get`, then the constructor. The stored
`total_value` is never read. -/
def Transaction.from_dict (r : TransRecord) : Except PyErr Transaction := do
  let tk ← requireField r.ticker
  let tyStr ← requireField r.transaction_type
  let ty ← TransactionType.ofValue tyStr
  let q ← requireField r.quantity
  let p ← requireField r.price
  let d ← requireField r.date
  pure (Transaction.init tk ty q p d r.transaction_id)

/-- `Stock.to_dict`. -/
def Stock.to_dict (s : Stock) : StockRecord :=
  { ticker := some s.ticker, name := some s.name }

/-- `Stock.from_dict`: `ticker` required, `name` via `.get` with default. -/
def Stock.from_dict (r : StockRecord) : Except PyErr Stock := do
  let tk ← requireField r.ticker
  pure (Stock.init tk (r.name.getD ""))

/-- `Portfolio.to_dict`. -/
def Portfolio.to_dict (p : Portfolio) : PortfolioRecord :=
  { name := some p.name
    stocks := some (p.stocks.map fun kv => (kv.1, kv.2.to_dict))
    transactions := some (p.transactions.map Transaction.to_dict) }

/-- `Portfolio.from_dict`: `name`/`stocks`/`transactions` all via `.get` with
defaults, loading stocks before transactions; any error from a record parse
propagates. -/
def Portfolio.from_dict (r : PortfolioRecord) : Except PyErr Portfolio := do
  let name := r.name.getD "My Portfolio"
  let stocks ← (r.stocks.getD []).mapM fun kv => do
    let s ← Stock.from_dict kv.2
    pure (kv.1, s)
  let txs ← (r.transactions.getD []).mapM Transaction.from_dict
  pure ⟨name, txs, stocks⟩

/-- `DataStore.load_portfolio` (`data_store.py` lines 35-51): `none` content
stands for a file whose `json.load` fails (`JSONDecodeError`). The
`try/except` catches exactly `JSONDecodeError` and `KeyError`; a `ValueError`
raised inside `Portfolio.from_dict` is not caught and propagates. -/
def DataStore.loadPortfolio (fileExists : Bool) (content : Option PortfolioRecord) :
    Except PyErr (Option Portfolio) :=
  if !fileExists then .ok none
  else
    match content with
    | none => .ok none
    | some data =>
      match Portfolio.from_dict data with
      | .ok p => .ok (some p)
      | .error .keyError => .ok none
      | .error .valueError => .error .valueError

/-! ### Division-instrumented (checked) variants for the safety claim

Each checked definition is the same code with every occurrence of `/` routed
through `qdiv?`, which fails on a zero denominator; proving it equal to
`some` of the plain definition shows no division by zero is ever executed. -/

/-- Division that fails (like Python `ZeroDivisionError`) on denominator 0. -/
def qdiv? (a b : ℚ) : Option ℚ :=
  if b = 0 then none else some (a / b)

/-- `holdingsStep` with instrumented division. -/
def holdingsStepChecked (st : ReplayState) (t : Transaction) : Option ReplayState :=
  match t.transaction_type with
  | .buy =>
      let cur := st t.ticker
      some (updateState st t.ticker ⟨cur.quantity + t.quantity, cur.total_cost + t.total_value⟩)
  | .sell =>
      let cur := st t.ticker
      if 0 < cur.quantity then do
        let avg ← qdiv? cur.total_cost cur.quantity
        pure (updateState st t.ticker ⟨cur.quantity - t.quantity, cur.total_cost - avg * t.quantity⟩)
      else
        some (updateState st t.ticker ⟨cur.quantity - t.quantity, cur.total_cost⟩)
  | .dividend => some st

/-- `holdingsReplay` with instrumented division. -/
def holdingsReplayChecked (ts : List Transaction) : Option ReplayState :=
  ts.foldlM holdingsStepChecked initState

/-- `getHoldings` with instrumented division (including the conditional
expression computing `average_cost` on line 108). -/
def getHoldingsChecked (ts : List Transaction) (tk : String) : Option (Option Holding) := do
  let stf ← holdingsReplayChecked ts
  let d := stf tk
  if 0 < d.quantity then do
    let avg ← if 0 < d.quantity then qdiv? d.total_cost d.quantity else some 0
    pure (some ⟨pyUpper tk, d.quantity, avg⟩)
  else
    pure none

/-- `gainsStep` with instrumented division. -/
def gainsStepChecked (acc : ReplayState × ℚ) (t : Transaction) : Option (ReplayState × ℚ) :=
  match t.transaction_type with
  | .buy =>
      let cur := acc.1 t.ticker
      some (updateState acc.1 t.ticker ⟨cur.quantity + t.quantity, cur.total_cost + t.total_value⟩,
            acc.2)
  | .sell =>
      let cur := acc.1 t.ticker
      if 0 < cur.quantity then do
        let avg ← qdiv? cur.total_cost cur.quantity
        let cost_basis := avg * t.quantity
        pure (updateState acc.1 t.ticker ⟨cur.quantity - t.quantity, cur.total_cost - cost_basis⟩,
              acc.2 + (t.total_value - cost_basis))
      else
        some acc
  | .dividend => some acc

/-- `get_realized_gains` with instrumented division. -/
def getRealizedGainsChecked (ts : List Transaction) : Option ℚ :=
  (ts.foldlM gainsStepChecked (initState, 0)).map fun acc => acc.2

/-- The holdings association list with instrumented division. -/
def holdingsItemsChecked (ts : List Transaction) : Option (List (String × Holding)) :=
  (holdingKeys ts).foldlM
    (fun acc tk => do
      let oh ← getHoldingsChecked ts tk
      pure (acc ++ (match oh with | some h => [(tk, h)] | none => [])))
    []

/-- `get_portfolio_summary` with instrumented division everywhere. -/
def getPortfolioSummaryChecked (p : Portfolio) : Option PortfolioSummary := do
  let items ← holdingsItemsChecked p.transactions
  let gains ← getRealizedGainsChecked p.transactions
  pure
    { name := p.name
      total_holdings := items.length
      total_cost_basis := (items.map fun kv => kv.2.total_cost).sum
      realized_gains := gains
      dividend_income := getDividendIncome p.transactions
      total_transactions := p.transactions.length
      holdings := items }

/-! ### Auxiliary predicates used by individual claims -/

/-- Starting from accumulator `st`, every SELL in the list arrives while its
ticker's replayed quantity is strictly positive (no over-sell, no sale from
an empty position). -/
def sellsCoveredFrom : ReplayState → List Transaction → Bool
  | _, [] => true
  | st, t :: ts =>
      (match t.transaction_type with
       | .sell => decide (0 < (st t.ticker).quantity)
       | _ => true)
      && sellsCoveredFrom (holdingsStep st t) ts

/-- Every SELL in the list arrives at strictly positive replayed quantity. -/
def sellsCovered (ts : List Transaction) : Bool :=
  sellsCoveredFrom initState ts

/-- The invariant `Transaction.__init__` establishes on every record it
returns: the ticker is normalization-stable and the id is non-empty. -/
def Transaction.wf (t : Transaction) : Prop :=
  pyUpper t.ticker = t.ticker ∧ t.transaction_id ≠ ""

/-- Two transaction wire records that agree on every field except possibly
the redundant `total_value`. -/
def TransRecord.sameExceptTV (a b : TransRecord) : Prop :=
  a.transaction_id = b.transaction_id ∧ a.ticker = b.ticker ∧
  a.transaction_type = b.transaction_type ∧ a.quantity = b.quantity ∧
  a.price = b.price ∧ a.date = b.date

/-- Two snapshots that differ at most in the `total_value` fields of their
transaction records. -/
def PortfolioRecord.sameExceptTV (a b : PortfolioRecord) : Prop :=
  a.name = b.name ∧ a.stocks = b.stocks ∧
  List.Forall₂ TransRecord.sameExceptTV (a.transactions.getD []) (b.transactions.getD [])

/-! ### Concrete fixtures used by counterexamples and witnesses -/

/-- A SELL arriving on an empty position ("AAPL" was never bought). -/
def cex1tx : Transaction := ⟨"AAPL", .sell, 1, 10, 0, "cex1"⟩

/-- A SELL arriving on an empty position, for the replay-divergence input. -/
def cex3tx : Transaction := ⟨"AAPL", .sell, 2, 7, 0, "cex3"⟩

/-- A transaction record whose `transaction_type` string is not a member of
the enum. -/
def c4rec : TransRecord := ⟨some "t1", some "AAPL", some "FOO", some 1, some 10, some 0, some 10⟩

/-- A structurally complete snapshot containing `c4rec`. -/
def c4snap : PortfolioRecord := ⟨some "P", some [], some [c4rec]⟩

/-- A transaction record missing its required `ticker` field. -/
def w4rec : TransRecord := ⟨none, none, some "BUY", some 1, some 1, some 0, none⟩

/-- A snapshot containing `w4rec`. -/
def w4snap : PortfolioRecord := ⟨some "P", some [], some [w4rec]⟩

/-- Witness fixtures: two covered transactions (buy then partial sell). -/
def w3buy : Transaction := ⟨"AAPL", .buy, 10, 150, 0, "w3b"⟩

def w3sell : Transaction := ⟨"AAPL", .sell, 5, 160, 1, "w3s"⟩

/-- Witness fixtures for the no-op sell claim: a position opened and fully
drained, then one more sell. -/
def w10buy : Transaction := ⟨"MSFT", .buy, 5, 300, 0, "w10b"⟩

def w10sell : Transaction := ⟨"MSFT", .sell, 5, 310, 1, "w10s"⟩

def w10sell2 : Transaction := ⟨"MSFT", .sell, 3, 320, 2, "w10s2"⟩

/-- Witness fixtures for the dividend frame claim. -/
def w8buy : Transaction := ⟨"AAPL", .buy, 10, 150, 0, "w8b"⟩

def w8div : Transaction := ⟨"AAPL", .dividend, 1, 50, 1, "w8d"⟩

/-- Witness fixtures for the weighted-mean claim. -/
def w6buy1 : Transaction := ⟨"GOOG", .buy, 50, 150, 0, "w6a"⟩

def w6buy2 : Transaction := ⟨"GOOG", .buy, 25, 155, 1, "w6b"⟩

/-- Witness fixtures for the snapshot round trip: constructor-built
transactions. -/
def w5tx1 : Transaction := Transaction.init "aapl" .buy 10 150 0 none

def w5tx2 : Transaction := Transaction.init "AAPL" .sell 4 160 1 (some "sid")

def w5p : Portfolio := ⟨"Mine", [w5tx1, w5tx2], []⟩

/-- Witness fixtures for total_value independence: records equal except in
the stored `total_value`. -/
def w9rec1 : TransRecord := ⟨some "t1", some "AAPL", some "BUY", some 10, some 150, some 0, some 1500⟩

def w9rec2 : TransRecord := ⟨some "t1", some "AAPL", some "BUY", some 10, some 150, some 0, some 999⟩

def w9snap1 : PortfolioRecord := ⟨some "P", some [], some [w9rec1]⟩

def w9snap2 : PortfolioRecord := ⟨some "P", some [], some [w9rec2]⟩

/-! ### Helper lemmas -/

theorem updateState_same (st : ReplayState) (tk : String) (v : TickerState) :
    updateState st tk v tk = v := by
  simp [updateState]

theorem updateState_other (st : ReplayState) (tk x : String) (v : TickerState)
    (h : x ≠ tk) : updateState st tk v x = st x := by
  simp [updateState, h]

theorem toNat_ofNat_valid (m : Nat) (h : m.isValidChar) : (Char.ofNat m).toNat = m := by
  rw [Char.ofNat, dif_pos h]
  rfl

theorem toUpper_toUpper (c : Char) : c.toUpper.toUpper = c.toUpper := by
  unfold Char.toUpper
  by_cases h : c.toNat ≥ 97 ∧ c.toNat ≤ 122
  · rw [if_pos h]
    have hv : Nat.isValidChar (c.toNat - 32) := Or.inl (by omega)
    have ht : (Char.ofNat (c.toNat - 32)).toNat = c.toNat - 32 := toNat_ofNat_valid _ hv
    rw [if_neg]
    rw [ht]
    omega
  · rw [if_neg h, if_neg h]

theorem pyUpper_idem (s : String) : pyUpper (pyUpper s) = pyUpper s := by
  simp only [pyUpper, List.map_map]
  congr 1
  apply List.map_congr_left
  intro c _
  exact toUpper_toUpper c

theorem generateId_ne_empty (tk : String) (d : Nat) : generateId tk d ≠ "" := by
  intro h
  have hd : (generateId tk d).data = [] := by rw [h]
  simp [generateId, String.data_append] at hd

/-- Every record built by `Transaction.__init__` satisfies the constructor
invariant. -/
theorem Transaction.init_wf (tk : String) (ty : TransactionType) (q p : ℚ)
    (d : Nat) (tid : Option String) : (Transaction.init tk ty q p d tid).wf := by
  refine ⟨pyUpper_idem tk, ?_⟩
  simp only [Transaction.init, Transaction.wf]
  match tid with
  | none => exact generateId_ne_empty _ _
  | some s =>
    by_cases hs : s = ""
    · simp only [hs, if_pos rfl]
      exact generateId_ne_empty _ _
    · simp only [if_neg hs]
      exact hs

theorem foldlM_option_eq {σ α : Type} (f : σ → α → σ) (fC : σ → α → Option σ)
    (hstep : ∀ s a, fC s a = some (f s a)) :
    ∀ (l : List α) (s : σ), l.foldlM fC s = some (l.foldl f s)
  | [], _ => rfl
  | a :: l, s => by
    simp only [List.foldlM, List.foldl, hstep]
    exact foldlM_option_eq f fC hstep l (f s a)

theorem mapM_except_eq {α β ε : Type} (f : α → Except ε β) (g : α → β) :
    ∀ (l : List α), (∀ x ∈ l, f x = .ok (g x)) → l.mapM f = .ok (l.map g)
  | [], _ => rfl
  | a :: l, h => by
    have ha : f a = .ok (g a) := h a (by simp)
    have hrest := mapM_except_eq f g l (fun x hx => h x (by simp [hx]))
    simp only [List.mapM_cons, List.map_cons, ha, hrest]
    rfl

theorem mapM_except_congr {α β ε : Type} (f : α → Except ε β)
    (R : α → α → Prop) (hf : ∀ a b, R a b → f a = f b) :
    ∀ (l₁ l₂ : List α), List.Forall₂ R l₁ l₂ → l₁.mapM f = l₂.mapM f
  | _, _, .nil => rfl
  | _, _, .cons hab hrest => by
    simp only [List.mapM_cons, hf _ _ hab, mapM_except_congr f R hf _ _ hrest]

theorem holdingsStep_dividend (st : ReplayState) (t : Transaction)
    (h : t.transaction_type = .dividend) : holdingsStep st t = st := by
  simp [holdingsStep, h]

theorem gainsStep_dividend (acc : ReplayState × ℚ) (t : Transaction)
    (h : t.transaction_type = .dividend) : gainsStep acc t = acc := by
  simp [gainsStep, h]

/-- In the realized-gains replay, a SELL finding no strictly positive tracked
quantity is skipped entirely: accumulator and running total unchanged. -/
theorem gainsStep_sell_nonpos (acc : ReplayState × ℚ) (t : Transaction)
    (hty : t.transaction_type = .sell) (hq : (acc.1 t.ticker).quantity ≤ 0) :
    gainsStep acc t = acc := by
  simp [gainsStep, hty, not_lt.mpr hq]

theorem holdingsReplay_append_single (ts : List Transaction) (t : Transaction) :
    holdingsReplay (ts ++ [t]) = holdingsStep (holdingsReplay ts) t := by
  simp [holdingsReplay, List.foldl_append]

theorem gainsReplay_append_single (ts : List Transaction) (t : Transaction) :
    gainsReplay (ts ++ [t]) = gainsStep (gainsReplay ts) t := by
  simp [gainsReplay, List.foldl_append]

theorem holdingsStepChecked_eq (st : ReplayState) (t : Transaction) :
    holdingsStepChecked st t = some (holdingsStep st t) := by
  cases h : t.transaction_type with
  | buy => simp [holdingsStepChecked, holdingsStep, h]
  | dividend => simp [holdingsStepChecked, holdingsStep, h]
  | sell =>
    simp only [holdingsStepChecked, holdingsStep, h]
    by_cases hq : 0 < (st t.ticker).quantity
    · simp [hq, qdiv?, ne_of_gt hq]
    · simp [hq]

theorem gainsStepChecked_eq (acc : ReplayState × ℚ) (t : Transaction) :
    gainsStepChecked acc t = some (gainsStep acc t) := by
  cases h : t.transaction_type with
  | buy => simp [gainsStepChecked, gainsStep, h]
  | dividend => simp [gainsStepChecked, gainsStep, h]
  | sell =>
    simp only [gainsStepChecked, gainsStep, h]
    by_cases hq : 0 < (acc.1 t.ticker).quantity
    · simp [hq, qdiv?, ne_of_gt hq]
    · simp [hq]

theorem holdingsReplayChecked_eq (ts : List Transaction) :
    holdingsReplayChecked ts = some (holdingsReplay ts) :=
  foldlM_option_eq holdingsStep holdingsStepChecked holdingsStepChecked_eq ts initState

theorem getRealizedGainsChecked_eq (ts : List Transaction) :
    getRealizedGainsChecked ts = some (getRealizedGains ts) := by
  simp [getRealizedGainsChecked, getRealizedGains, gainsReplay,
    foldlM_option_eq gainsStep gainsStepChecked gainsStepChecked_eq ts (initState, 0)]

theorem getHoldingsChecked_eq (ts : List Transaction) (tk : String) :
    getHoldingsChecked ts tk = some (getHoldings ts tk) := by
  simp only [getHoldingsChecked, getHoldings, holdingsReplayChecked_eq, Option.bind_some]
  by_cases hq : 0 < (holdingsReplay ts tk).quantity
  · simp [hq, qdiv?, ne_of_gt hq]
  · simp [hq]

theorem itemsFold_eq (ts : List Transaction) :
    ∀ (ks : List String) (acc : List (String × Holding)),
      (ks.foldlM
        (fun acc tk => do
          let oh ← getHoldingsChecked ts tk
          pure (acc ++ (match oh with | some h => [(tk, h)] | none => [])))
        acc)
      = some (acc ++ ks.filterMap fun tk => (getHoldings ts tk).map fun h => (tk, h))
  | [], acc => by simp [List.foldlM]
  | k :: ks, acc => by
    rw [List.foldlM_cons, getHoldingsChecked_eq ts k]
    show ((some (getHoldings ts k)).bind fun oh =>
        (some (acc ++ (match oh with | some h => [(k, h)] | none => [])) : Option _)) >>=
        (fun s => ks.foldlM
          (fun acc tk => do
            let oh ← getHoldingsChecked ts tk
            pure (acc ++ (match oh with | some h => [(tk, h)] | none => []))) s)
      = _
    rw [Option.some_bind]
    show ks.foldlM _ (acc ++ (match getHoldings ts k with | some h => [(k, h)] | none => [])) = _
    rw [itemsFold_eq ts ks (acc ++ (match getHoldings ts k with | some h => [(k, h)] | none => []))]
    cases hk : getHoldings ts k with
    | none => simp [List.filterMap_cons, hk]
    | some h => simp [List.filterMap_cons, hk]

theorem holdingsItemsChecked_eq (ts : List Transaction) :
    holdingsItemsChecked ts = some (holdingsItems ts) := by
  simpa using itemsFold_eq ts (holdingKeys ts) []

theorem getPortfolioSummaryChecked_eq (p : Portfolio) :
    getPortfolioSummaryChecked p = some (getPortfolioSummary p) := by
  simp [getPortfolioSummaryChecked, getPortfolioSummary,
    holdingsItemsChecked_eq, getRealizedGainsChecked_eq]

/-- When a transaction is "covered" (a SELL only arrives at positive tracked
quantity), one step of the realized-gains replay moves the tracker exactly as
one step of the holdings replay. -/
theorem gainsStep_fst_eq_holdingsStep (st : ReplayState) (g : ℚ) (t : Transaction)
    (hcov : t.transaction_type = .sell → 0 < (st t.ticker).quantity) :
    (gainsStep (st, g) t).1 = holdingsStep st t := by
  cases h : t.transaction_type with
  | buy => simp [gainsStep, holdingsStep, h]
  | dividend => simp [gainsStep, holdingsStep, h]
  | sell =>
    have hq := hcov h
    simp [gainsStep, holdingsStep, h, hq]

theorem covered_states_eq :
    ∀ (ts : List Transaction) (st : ReplayState) (g : ℚ),
      sellsCoveredFrom st ts = true →
      (ts.foldl gainsStep (st, g)).1 = ts.foldl holdingsStep st
  | [], _, _, _ => rfl
  | t :: ts, st, g, h => by
    simp only [sellsCoveredFrom, Bool.and_eq_true] at h
    have hcov : t.transaction_type = .sell → 0 < (st t.ticker).quantity := by
      intro hty
      rcases h with ⟨h1, _⟩
      rw [hty] at h1
      exact of_decide_eq_true h1
    have hfst := gainsStep_fst_eq_holdingsStep st g t hcov
    simp only [List.foldl_cons]
    have : gainsStep (st, g) t = (holdingsStep st t, (gainsStep (st, g) t).2) := by
      rw [← hfst]
    rw [this]
    exact covered_states_eq ts (holdingsStep st t) _ h.2

theorem sellsCoveredFrom_take :
    ∀ (ts : List Transaction) (st : ReplayState), sellsCoveredFrom st ts = true →
      ∀ n, sellsCoveredFrom st (ts.take n) = true
  | [], _, _, n => by simp [List.take, sellsCoveredFrom]
  | t :: ts, st, h, 0 => rfl
  | t :: ts, st, h, n + 1 => by
    simp only [sellsCoveredFrom, Bool.and_eq_true] at h
    simp only [List.take, sellsCoveredFrom, Bool.and_eq_true]
    exact ⟨h.1, sellsCoveredFrom_take ts (holdingsStep st t) h.2 n⟩

/-- A buy-only single-ticker suffix advances the tracked entry by the sums of
quantities and of total values. -/
theorem buy_replay_state (tk : String) :
    ∀ (ts : List Transaction) (st : ReplayState),
      (∀ t ∈ ts, t.transaction_type = .buy ∧ t.ticker = tk) →
      ts.foldl holdingsStep st tk =
        ⟨(st tk).quantity + (ts.map Transaction.quantity).sum,
         (st tk).total_cost + (ts.map Transaction.total_value).sum⟩
  | [], st, _ => by simp
  | t :: ts, st, h => by
    have ht := h t (by simp)
    have hstep : holdingsStep st t =
        updateState st tk ⟨(st tk).quantity + t.quantity, (st tk).total_cost + t.total_value⟩ := by
      simp [holdingsStep, ht.1, ht.2]
    simp only [List.foldl_cons, hstep]
    rw [buy_replay_state tk ts _ (fun x hx => h x (by simp [hx]))]
    simp [updateState_same]
    constructor <;> ring

theorem ofValue_value (ty : TransactionType) :
    TransactionType.ofValue ty.value = .ok ty := by
  cases ty <;> rfl

/-- A constructor-built transaction survives the wire round trip exactly. -/
theorem tx_roundtrip (t : Transaction) (h : t.wf) :
    Transaction.from_dict t.to_dict = .ok t := by
  obtain ⟨htk, hid⟩ := h
  have hinit : Transaction.init t.ticker t.transaction_type t.quantity t.price t.date
      (some t.transaction_id) = t := by
    cases t with
    | mk tk ty q p d tid =>
      simp only [Transaction.wf] at htk hid
      simp [Transaction.init, htk, hid]
  show (TransactionType.ofValue t.transaction_type.value).bind
      (fun ty => Except.ok (Transaction.init t.ticker ty t.quantity t.price t.date
        (some t.transaction_id))) = .ok t
  rw [ofValue_value]
  show Except.ok (Transaction.init t.ticker t.transaction_type t.quantity t.price t.date
    (some t.transaction_id)) = .ok t
  rw [hinit]

theorem stock_roundtrip (s : Stock) :
    Stock.from_dict s.to_dict = .ok (Stock.init s.ticker s.name) := rfl

theorem mapM_except_map {α β γ ε : Type} (m : α → β) (f : β → Except ε γ) (g : α → γ) :
    ∀ (l : List α), (∀ x ∈ l, f (m x) = .ok (g x)) → (l.map m).mapM f = .ok (l.map g)
  | [], _ => rfl
  | a :: l, h => by
    have ha : f (m a) = .ok (g a) := h a (by simp)
    have hrest := mapM_except_map m f g l (fun x hx => h x (by simp [hx]))
    simp only [List.map_cons, List.mapM_cons, ha, hrest]
    rfl

/-- `Portfolio.from_dict` on a snapshot with all three top-level fields
present, given that both record lists deserialize cleanly. -/
theorem from_dict_ok (name : String) (ss : List (String × StockRecord))
    (trs : List TransRecord) (stocks : List (String × Stock)) (txs : List Transaction)
    (hs : ss.mapM (fun kv => do
        let s ← Stock.from_dict kv.2
        pure (kv.1, s)) = .ok stocks)
    (ht : trs.mapM Transaction.from_dict = .ok txs) :
    Portfolio.from_dict ⟨some name, some ss, some trs⟩ = .ok ⟨name, txs, stocks⟩ := by
  show (ss.mapM (fun kv : String × StockRecord => do
      let s ← Stock.from_dict kv.2
      pure (kv.1, s))).bind (fun stocks => (trs.mapM Transaction.from_dict).bind
        fun txs => Except.ok (⟨name, txs, stocks⟩ : Portfolio)) = _
  rw [hs, ht]
  rfl

/-- The portfolio wire round trip: succeeds on any portfolio whose
transactions satisfy the constructor invariant, and reproduces the name and
the transaction list exactly. -/
theorem portfolio_roundtrip (p : Portfolio) (h : ∀ t ∈ p.transactions, t.wf) :
    ∃ q : Portfolio, Portfolio.from_dict p.to_dict = .ok q ∧
      q.transactions = p.transactions ∧ q.name = p.name := by
  have hs : (p.stocks.map fun kv => (kv.1, kv.2.to_dict)).mapM
      (fun kv : String × StockRecord => do
        let s ← Stock.from_dict kv.2
        pure (kv.1, s)) =
      .ok (p.stocks.map fun kv => (kv.1, Stock.init kv.2.ticker kv.2.name)) := by
    apply mapM_except_map
    intro kv _
    rfl
  have ht : (p.transactions.map Transaction.to_dict).mapM Transaction.from_dict =
      .ok p.transactions := by
    have := mapM_except_map Transaction.to_dict Transaction.from_dict id p.transactions
      (fun t htm => tx_roundtrip t (h t htm))
    simpa using this
  exact ⟨⟨p.name, p.transactions, _⟩, from_dict_ok p.name _ _ _ _ hs ht, rfl, rfl⟩

/-- `Transaction.from_dict` never reads the stored `total_value`, so records
equal elsewhere deserialize identically. -/
theorem tx_from_dict_congr (a b : TransRecord) (h : a.sameExceptTV b) :
    Transaction.from_dict a = Transaction.from_dict b := by
  obtain ⟨h1, h2, h3, h4, h5, h6⟩ := h
  simp only [Transaction.from_dict, h1, h2, h3, h4, h5, h6]

theorem portfolio_from_dict_congr (a b : PortfolioRecord)
    (h : a.sameExceptTV b) : Portfolio.from_dict a = Portfolio.from_dict b := by
  obtain ⟨hn, hs, htr⟩ := h
  have htx : (a.transactions.getD []).mapM Transaction.from_dict
      = (b.transactions.getD []).mapM Transaction.from_dict :=
    mapM_except_congr Transaction.from_dict TransRecord.sameExceptTV
      (fun x y hxy => tx_from_dict_congr x y hxy) _ _ htr
  simp only [Portfolio.from_dict, hn, hs, htx]

theorem getDividendIncome_append_dividend (ts : List Transaction) (d : Transaction)
    (h : d.transaction_type = .dividend) :
    getDividendIncome (ts ++ [d]) = getDividendIncome ts + d.quantity * d.price := by
  simp [getDividendIncome, List.filter_append, h, Transaction.total_value]

/-! ### Claim theorems -/

/-- Claim C7: every ledger-query operation is total — rerunning
`get_holdings`, `get_realized_gains` and `get_portfolio_summary` with every
division instrumented to fail on a zero denominator always succeeds and
returns the plain result, so each division inside the replay is reached only
under a strictly-positive-quantity guard (`get_dividend_income` contains no
division at all). -/
theorem C7_queries_total (p : Portfolio) (tk : String) :
    getHoldingsChecked p.transactions tk = some (getHoldings p.transactions tk) ∧
    getRealizedGainsChecked p.transactions = some (getRealizedGains p.transactions) ∧
    getPortfolioSummaryChecked p = some (getPortfolioSummary p) :=
  ⟨getHoldingsChecked_eq p.transactions tk, getRealizedGainsChecked_eq p.transactions,
   getPortfolioSummaryChecked_eq p⟩

/-- Claim C10: in `get_realized_gains`, a SELL arriving while the tracked
quantity is zero or negative is a complete no-op — the running total and the
whole tracker state are unchanged. -/
theorem C10_sell_nonpos_noop (ts : List Transaction) (t : Transaction)
    (hty : t.transaction_type = .sell)
    (hq : ((gainsReplay ts).1 t.ticker).quantity ≤ 0) :
    getRealizedGains (ts ++ [t]) = getRealizedGains ts ∧
    (gainsReplay (ts ++ [t])).1 = (gainsReplay ts).1 := by
  have hstep := gainsStep_sell_nonpos (gainsReplay ts) t hty hq
  constructor
  · simp [getRealizedGains, gainsReplay_append_single, hstep]
  · simp [gainsReplay_append_single, hstep]

/-- Witness for C10 at a concrete input: buy 5, sell all 5, then sell 3 more
— the tracked quantity is 0 when the third transaction arrives, and the
realized-gains total does not move. -/
theorem C10_witness :
    w10sell2.transaction_type = .sell ∧
    ((gainsReplay [w10buy, w10sell]).1 w10sell2.ticker).quantity ≤ 0 ∧
    getRealizedGains ([w10buy, w10sell] ++ [w10sell2]) = getRealizedGains [w10buy, w10sell] := by
  have hq : ((gainsReplay [w10buy, w10sell]).1 w10sell2.ticker).quantity ≤ 0 := by
    norm_num [gainsReplay, gainsStep, initState, updateState, TickerState.zero,
      w10buy, w10sell, w10sell2, Transaction.total_value]
  exact ⟨rfl, hq, (C10_sell_nonpos_noop [w10buy, w10sell] w10sell2 rfl hq).1⟩

/-- Claim C8: appending a DIVIDEND transaction changes only dividend income —
holdings and realized gains are untouched, and dividend income grows by
exactly `quantity * price`. -/
theorem C8_dividend_frame (ts : List Transaction) (d : Transaction)
    (h : d.transaction_type = .dividend) :
    (∀ tk, getHoldings (ts ++ [d]) tk = getHoldings ts tk) ∧
    getRealizedGains (ts ++ [d]) = getRealizedGains ts ∧
    getDividendIncome (ts ++ [d]) = getDividendIncome ts + d.quantity * d.price := by
  refine ⟨?_, ?_, getDividendIncome_append_dividend ts d h⟩
  · intro tk
    simp [getHoldings, holdingsReplay_append_single, holdingsStep_dividend _ _ h]
  · simp [getRealizedGains, gainsReplay_append_single, gainsStep_dividend _ _ h]

/-- Witness for C8 at a concrete input: a $50 dividend after a buy. -/
theorem C8_witness :
    w8div.transaction_type = .dividend ∧
    getHoldings ([w8buy] ++ [w8div]) "AAPL" = getHoldings [w8buy] "AAPL" ∧
    getDividendIncome ([w8buy] ++ [w8div]) = getDividendIncome [w8buy] + w8div.quantity * w8div.price := by
  have h := C8_dividend_frame [w8buy] w8div rfl
  exact ⟨rfl, h.1 "AAPL", h.2.2⟩

/-- Claim C2 counterexample: constructing a Transaction with a non-positive
quantity does not fail — `__init__` contains no validation, so the claimed
`InvalidTransaction` rejection does not exist in the code. -/
theorem C2_counterexample :
    ((-5 : ℚ) ≤ 0 ∨ (10 : ℚ) ≤ 0) ∧
    (Transaction.tryInit "AAPL" TransactionType.buy (-5) 10 0 none).isOk = true := by
  constructor
  · left
    norm_num
  · rfl

/-- Claim C2 (amended): `Transaction` construction succeeds for every input,
including non-positive quantity or price, and stores quantity and price
verbatim; the `quantity > 0` / `price > 0` validation lives only in the CLI
callers, before construction. -/
theorem C2_amended (tk : String) (ty : TransactionType) (q p : ℚ) (d : Nat)
    (tid : Option String) :
    Transaction.tryInit tk ty q p d tid = .ok (Transaction.init tk ty q p d tid) ∧
    (Transaction.init tk ty q p d tid).quantity = q ∧
    (Transaction.init tk ty q p d tid).price = p :=
  ⟨rfl, rfl, rfl⟩

/-- Claim C1 counterexample: a SELL arriving at replayed open quantity 0
(the first and only transaction) contributes nothing to
`get_realized_gains` — not its full `sell_value` of 10 — and the
realized-gains tracker's quantity stays 0 rather than going below zero. -/
theorem C1_counterexample :
    getRealizedGains [cex1tx] ≠ cex1tx.total_value ∧
    getRealizedGains [cex1tx] = 0 ∧
    cex1tx.total_value = 10 ∧
    (gainsReplay [cex1tx]).1 "AAPL" = TickerState.zero := by
  refine ⟨?_, rfl, ?_, rfl⟩
  · norm_num [getRealizedGains, gainsReplay, gainsStep, initState, updateState,
      TickerState.zero, cex1tx, Transaction.total_value]
  · norm_num [cex1tx, Transaction.total_value]

/-- Claim C1 (amended): in `get_realized_gains`, a SELL arriving at tracked
quantity 0 is a no-op (no gain contribution, tracker unchanged); only the
`get_holdings` replay pushes the quantity below zero, keeping the cost basis
unchanged. -/
theorem C1_amended (ts : List Transaction) (t : Transaction)
    (hty : t.transaction_type = .sell)
    (hq : ((gainsReplay ts).1 t.ticker).quantity = 0) :
    getRealizedGains (ts ++ [t]) = getRealizedGains ts ∧
    (gainsReplay (ts ++ [t])).1 = (gainsReplay ts).1 ∧
    (∀ st : ReplayState, (st t.ticker).quantity = 0 →
      holdingsStep st t t.ticker = ⟨0 - t.quantity, (st t.ticker).total_cost⟩) := by
  have hstep := gainsStep_sell_nonpos (gainsReplay ts) t hty (le_of_eq hq)
  refine ⟨?_, ?_, ?_⟩
  · simp [getRealizedGains, gainsReplay_append_single, hstep]
  · simp [gainsReplay_append_single, hstep]
  · intro st hst
    simp [holdingsStep, hty, hst, updateState_same]

/-- Witness for C1 (amended) at a concrete input: the lone SELL of `cex1tx`
leaves the realized-gains total at 0. -/
theorem C1_witness :
    cex1tx.transaction_type = .sell ∧
    ((gainsReplay []).1 cex1tx.ticker).quantity = 0 ∧
    getRealizedGains ([] ++ [cex1tx]) = getRealizedGains [] := by
  exact ⟨rfl, rfl, (C1_amended [] cex1tx rfl rfl).1⟩

/-- Claim C3 counterexample: after a single SELL on an empty position the two
replays hold different per-ticker states — the holdings pass has pushed the
quantity to -2 while the realized-gains pass left it at 0 — so the two passes
are not the same state machine on every input. -/
theorem C3_counterexample :
    (gainsReplay [cex3tx]).1 "AAPL" ≠ holdingsReplay [cex3tx] "AAPL" := by
  norm_num [gainsReplay, holdingsReplay, gainsStep, holdingsStep, initState,
    updateState, TickerState.zero, cex3tx]

/-- Claim C3 (amended): as long as every SELL arrives at strictly positive
replayed quantity (no over-sell and no sale from an empty position), the
holdings replay and the realized-gains replay agree on the full per-ticker
state at every prefix of the list; moreover at every such covered SELL the
cost basis removed by the holdings pass equals the cost basis charged
against the sale by the realized-gains pass. -/
theorem C3_amended (ts : List Transaction) (h : sellsCovered ts = true) :
    (∀ n, (gainsReplay (ts.take n)).1 = holdingsReplay (ts.take n)) ∧
    (∀ (st : ReplayState) (g : ℚ) (t : Transaction), t.transaction_type = .sell →
      0 < (st t.ticker).quantity →
      (st t.ticker).total_cost - (holdingsStep st t t.ticker).total_cost
        = t.total_value - ((gainsStep (st, g) t).2 - g)) := by
  constructor
  · intro n
    exact covered_states_eq (ts.take n) initState 0 (sellsCoveredFrom_take ts initState h n)
  · intro st g t hty hq
    simp [holdingsStep, gainsStep, hty, hq, updateState_same]

/-- Witness for C3 (amended) at a concrete input: buy 10, sell 5 — the sell
is covered and the two replay states agree after both transactions. -/
theorem C3_witness :
    sellsCovered [w3buy, w3sell] = true ∧
    (gainsReplay ([w3buy, w3sell].take 2)).1 = holdingsReplay ([w3buy, w3sell].take 2) := by
  have hcov : sellsCovered [w3buy, w3sell] = true := by
    norm_num [sellsCovered, sellsCoveredFrom, holdingsStep, initState, updateState,
      TickerState.zero, w3buy, w3sell, Transaction.total_value]
  exact ⟨hcov, (C3_amended [w3buy, w3sell] hcov).1 2⟩

/-- Claim C6: a non-empty all-BUY single-ticker history yields a holding with
the summed quantity and the quantity-weighted mean price as average cost, and
the resulting holding is invariant under any permutation of the history. -/
theorem C6_weighted_mean (tk : String) (ts : List Transaction)
    (hne : ts ≠ [])
    (hall : ∀ t ∈ ts, t.transaction_type = .buy ∧ t.ticker = tk ∧ 0 < t.quantity) :
    getHoldings ts tk =
      some ⟨pyUpper tk, (ts.map Transaction.quantity).sum,
        (ts.map Transaction.total_value).sum / (ts.map Transaction.quantity).sum⟩ ∧
    ∀ ts₂, ts.Perm ts₂ → getHoldings ts₂ tk = getHoldings ts tk := by
  have hstate : holdingsReplay ts tk =
      ⟨(ts.map Transaction.quantity).sum, (ts.map Transaction.total_value).sum⟩ := by
    have := buy_replay_state tk ts initState (fun t ht => ⟨(hall t ht).1, (hall t ht).2.1⟩)
    simpa [holdingsReplay, initState, TickerState.zero] using this
  have hpos : 0 < (ts.map Transaction.quantity).sum := by
    apply List.sum_pos
    · intro q hq
      obtain ⟨t, ht, rfl⟩ := List.mem_map.1 hq
      exact (hall t ht).2.2
    · simpa using hne
  constructor
  · simp [getHoldings, hstate, hpos]
  · intro ts₂ hperm
    have hall₂ : ∀ t ∈ ts₂, t.transaction_type = .buy ∧ t.ticker = tk ∧ 0 < t.quantity :=
      fun t ht => hall t (hperm.mem_iff.2 ht)
    have hstate₂ : holdingsReplay ts₂ tk =
        ⟨(ts₂.map Transaction.quantity).sum, (ts₂.map Transaction.total_value).sum⟩ := by
      have := buy_replay_state tk ts₂ initState (fun t ht => ⟨(hall₂ t ht).1, (hall₂ t ht).2.1⟩)
      simpa [holdingsReplay, initState, TickerState.zero] using this
    have hq2 : (ts₂.map Transaction.quantity).sum = (ts.map Transaction.quantity).sum :=
      ((hperm.map Transaction.quantity).sum_eq).symm
    have hv2 : (ts₂.map Transaction.total_value).sum = (ts.map Transaction.total_value).sum :=
      ((hperm.map Transaction.total_value).sum_eq).symm
    simp [getHoldings, hstate, hstate₂, hq2, hv2]

/-- Witness for C6 at a concrete input: 50 shares at 150 plus 25 shares at
155 average to 455/3 per share, in either order. -/
theorem C6_witness :
    ([w6buy1, w6buy2] ≠ ([] : List Transaction)) ∧
    (∀ t ∈ [w6buy1, w6buy2], t.transaction_type = .buy ∧ t.ticker = "GOOG" ∧ 0 < t.quantity) ∧
    getHoldings [w6buy1, w6buy2] "GOOG" =
      some ⟨pyUpper "GOOG", ([w6buy1, w6buy2].map Transaction.quantity).sum,
        ([w6buy1, w6buy2].map Transaction.total_value).sum /
          ([w6buy1, w6buy2].map Transaction.quantity).sum⟩ ∧
    getHoldings [w6buy2, w6buy1] "GOOG" = getHoldings [w6buy1, w6buy2] "GOOG" := by
  have hne : ([w6buy1, w6buy2] ≠ ([] : List Transaction)) := by simp
  have hall : ∀ t ∈ [w6buy1, w6buy2], t.transaction_type = .buy ∧ t.ticker = "GOOG" ∧ 0 < t.quantity := by
    intro t ht
    simp only [List.mem_cons, List.not_mem_nil, or_false] at ht
    rcases ht with rfl | rfl
    · exact ⟨rfl, rfl, by norm_num [w6buy1]⟩
    · exact ⟨rfl, rfl, by norm_num [w6buy2]⟩
  have h := C6_weighted_mean "GOOG" [w6buy1, w6buy2] hne hall
  exact ⟨hne, hall, h.1, h.2 [w6buy2, w6buy1] (List.Perm.swap w6buy2 w6buy1 [])⟩

/-- Claim C5: the snapshot round trip `from_dict ∘ to_dict` succeeds on a
portfolio of constructor-built transactions and produces a portfolio with
identical holdings, realized gains, and dividend income. -/
theorem C5_roundtrip (p : Portfolio) (h : ∀ t ∈ p.transactions, t.wf) :
    ∃ q : Portfolio, Portfolio.from_dict p.to_dict = .ok q ∧
      (∀ tk, getHoldings q.transactions tk = getHoldings p.transactions tk) ∧
      getRealizedGains q.transactions = getRealizedGains p.transactions ∧
      getDividendIncome q.transactions = getDividendIncome p.transactions := by
  obtain ⟨q, hq, htx, _⟩ := portfolio_roundtrip p h
  exact ⟨q, hq, fun tk => by rw [htx], by rw [htx], by rw [htx]⟩

/-- Witness for C5 at a concrete input: a two-transaction portfolio built
through the constructor. -/
theorem C5_witness :
    (∀ t ∈ w5p.transactions, t.wf) ∧
    (∃ q : Portfolio, Portfolio.from_dict w5p.to_dict = .ok q ∧
      (∀ tk, getHoldings q.transactions tk = getHoldings w5p.transactions tk) ∧
      getRealizedGains q.transactions = getRealizedGains w5p.transactions ∧
      getDividendIncome q.transactions = getDividendIncome w5p.transactions) := by
  have hw : ∀ t ∈ w5p.transactions, t.wf := by
    intro t ht
    simp only [w5p, List.mem_cons, List.not_mem_nil, or_false] at ht
    rcases ht with rfl | rfl
    · exact Transaction.init_wf "aapl" .buy 10 150 0 none
    · exact Transaction.init_wf "AAPL" .sell 4 160 1 (some "sid")
  exact ⟨hw, C5_roundtrip w5p hw⟩

/-- Claim C9: the stored `total_value` field is never authoritative — two
snapshots that differ only in `total_value` fields deserialize to equal
results, hence to portfolios with identical holdings, realized gains, and
dividend income. -/
theorem C9_total_value_ignored (a b : PortfolioRecord) (h : a.sameExceptTV b) :
    Portfolio.from_dict a = Portfolio.from_dict b ∧
    (∀ pa pb, Portfolio.from_dict a = .ok pa → Portfolio.from_dict b = .ok pb →
      (∀ tk, getHoldings pa.transactions tk = getHoldings pb.transactions tk) ∧
      getRealizedGains pa.transactions = getRealizedGains pb.transactions ∧
      getDividendIncome pa.transactions = getDividendIncome pb.transactions) := by
  have heq := portfolio_from_dict_congr a b h
  refine ⟨heq, ?_⟩
  intro pa pb ha hb
  rw [heq, hb] at ha
  have : pb = pa := Except.ok.inj ha
  subst this
  exact ⟨fun tk => rfl, rfl, rfl⟩

/-- Witness for C9 at a concrete input: two snapshots whose only difference
is a tampered `total_value` (1500 vs 999) deserialize identically. -/
theorem C9_witness :
    w9snap1.sameExceptTV w9snap2 ∧
    Portfolio.from_dict w9snap1 = Portfolio.from_dict w9snap2 := by
  have hsame : w9snap1.sameExceptTV w9snap2 := by
    refine ⟨rfl, rfl, ?_⟩
    exact List.Forall₂.cons ⟨rfl, rfl, rfl, rfl, rfl, rfl⟩ List.Forall₂.nil
  exact ⟨hsame, (C9_total_value_ignored w9snap1 w9snap2 hsame).1⟩

/-- Claim C4 counterexample: a structurally complete snapshot whose
`transaction_type` string is unrecognized makes `load_portfolio` raise
`ValueError` to its caller — the `except` clause catches only
`JSONDecodeError` and `KeyError`, so this is not surfaced as `None`. -/
theorem C4_counterexample :
    DataStore.loadPortfolio true (some c4snap) = .error .valueError ∧
    DataStore.loadPortfolio true (some c4snap) ≠ .ok none := by
  have h : DataStore.loadPortfolio true (some c4snap) = .error .valueError := rfl
  refine ⟨h, ?_⟩
  rw [h]
  intro hcon
  exact Except.noConfusion hcon

/-- Claim C4 (amended): `load_portfolio` returns `None` (without raising) for
a missing file, undecodable JSON, and missing required fields (`KeyError`);
but a field value of the wrong shape — an unrecognized `transaction_type`
string, which raises `ValueError` inside `Transaction.from_dict` — is not
caught and propagates to the caller. -/
theorem C4_amended (e : Bool) (c : Option PortfolioRecord) :
    (e = false → DataStore.loadPortfolio e c = .ok none) ∧
    (c = none → DataStore.loadPortfolio e c = .ok none) ∧
    (∀ s, c = some s → Portfolio.from_dict s = .error .keyError →
      DataStore.loadPortfolio e c = .ok none) ∧
    (∀ s, c = some s → e = true → Portfolio.from_dict s = .error .valueError →
      DataStore.loadPortfolio e c = .error .valueError) := by
  refine ⟨?_, ?_, ?_, ?_⟩
  · intro he
    subst he
    rfl
  · intro hc
    subst hc
    cases e <;> rfl
  · intro s hc hkey
    subst hc
    cases e
    · rfl
    · simp [DataStore.loadPortfolio, hkey]
  · intro s hc he hval
    subst hc
    subst he
    simp [DataStore.loadPortfolio, hval]

/-- Witness for C4 (amended) at a concrete input: a snapshot whose
transaction record is missing `ticker` raises `KeyError` inside
`from_dict`, which `load_portfolio` catches, returning `None`. -/
theorem C4_witness :
    Portfolio.from_dict w4snap = .error .keyError ∧
    DataStore.loadPortfolio true (some w4snap) = .ok none := by
  have hk : Portfolio.from_dict w4snap = .error .keyError := rfl
  exact ⟨hk, (C4_amended true (some w4snap)).2.2.1 w4snap rfl hk⟩
